import Mathlib

/-!
# Verification of the speech2text command-line scripts

Shallow embedding of the three Python scripts of the repository:

* `transcriber.py`    — basic transcriber (`transcribe_audio`, `main`)
* `transcriber_pb.py` — progress-reporting transcriber
  (`ProgressCallback`, `get_audio_duration`, `transcribe_audio`, `main`)
* `m4a2wav.py`        — format converter (module-level script)

Side effects (console prints, model loading, model invocation, duration
probing, progress-bar updates, output-file writes) are recorded as an
explicit event trace.  The external world (filesystem, whisper model,
ffprobe) is an `Env` of oracle functions; library calls that may raise are
modelled as `Except PyError`.  Wall-clock timing figures inside printed
messages, float formatting and ANSI colors are presentation details elided
from the trace; float arithmetic is modelled over `ℚ`.  Asynchronous
KeyboardInterrupt delivery is a real-time phenomenon outside the embedding,
so the error space contains only errors raised by the library calls.
-/

/-- Exceptions the embedded library calls can raise: `FileNotFoundError`
(raised by the existence check) and every other exception (`Exception` in
Python), carrying its message. -/
inductive PyError where
  | fileNotFound (msg : String)
  | otherError (msg : String)
  deriving Repr, DecidableEq

/-- A transcription segment (`result['segments'][i]`): start/end offsets in
seconds, recognized text, and the optional `avg_logprob` confidence score
(`seg.get('avg_logprob', 0)` defaults it to 0 where read). -/
structure Segment where
  start : ℚ
  end_ : ℚ
  text : String
  avg_logprob : Option ℚ := none
  deriving Repr, DecidableEq

/-- The transcription result dict returned by `model.transcribe`:
full text, detected language, ordered segment list. -/
structure TranscriptionResult where
  text : String
  language : String
  segments : List Segment
  deriving Repr, DecidableEq

/-- The keyword arguments passed to `model.transcribe`.  `none` means the
keyword is absent from the call.  `progress_callback` records whether a
progress callback object is passed to the invocation (the whisper API is
`**kwargs`, so it could be); neither script ever passes one. -/
structure TranscribeOptions where
  language : Option String := none
  fp16 : Option Bool := none
  verbose : Option Bool := none
  progress_callback : Option Nat := none
  deriving Repr, DecidableEq

/-- One observable side effect of a transcriber run. -/
inductive Event where
  /-- A console print.  Timing figures and float formatting are elided. -/
  | print (s : String)
  /-- The two-line format warning (`Advertencia: El formato ... ` and
  `Formatos soportados: ...`) for extension `ext`. -/
  | warnFormat (ext : String)
  /-- `whisper.load_model(size)` was called. -/
  | loadModel (size : String)
  /-- `get_audio_duration` ran `ffprobe` on `path`. -/
  | probeDuration (path : String)
  /-- `model.transcribe(path, **opts)` was called. -/
  | transcribeCall (path : String) (opts : TranscribeOptions)
  /-- One iteration of the post-hoc per-segment progress bar
  (`pbar.set_postfix(...)`, `pbar.update(1)`) for segment index `i`. -/
  | progressUpdate (i : Nat)
  /-- `open(path, 'w').write(contents)`. -/
  | writeFile (path : String) (contents : String)
  /-- One line of the verbose per-segment listing (1-based index). -/
  | segmentLine (i : Nat) (seg : Segment)
  deriving Repr, DecidableEq

/-- The external world: the filesystem existence oracle (`os.path.exists`),
the outcome of `whisper.load_model`, the outcome of `model.transcribe` for a
given model size, audio path and options, and the ffprobe duration
(`get_audio_duration` returns `None` both on nonzero exit and on any
exception, collapsed here into `Option ℚ`). -/
structure Env where
  pathExists : String → Bool
  loadModel : String → Except PyError Unit
  transcribe : String → String → TranscribeOptions → Except PyError TranscriptionResult
  audioDuration : String → Option ℚ

/-- Python truthiness of an optional string argument (`if language:`,
`if output_file:`): `None` and `""` are falsy. -/
def pyTruthy : Option String → Bool
  | none => false
  | some s => s ≠ ""

/-- `supported_formats` (transcriber.py:27, transcriber_pb.py:80). -/
def supported_formats : List String :=
  [".mp3", ".wav", ".m4a", ".flac", ".ogg", ".wma", ".aac"]

/-- `Path(p).name`: the final path component — the characters after the
last slash, ignoring trailing slashes.  (Structural list recursion so that
concrete paths evaluate inside the kernel.) -/
def pathName (p : String) : String :=
  String.mk (((p.data.reverse.dropWhile (fun c => c = '/')).takeWhile
    (fun c => c ≠ '/')).reverse)

/-- `str.lower()`, character by character (ASCII as in the checked
extensions). -/
def strToLower (s : String) : String :=
  String.mk (s.data.map Char.toLower)

/-- Index of the last `'.'` in a character list, if any. -/
def lastDotIdx (cs : List Char) : Option Nat :=
  ((List.range cs.length).filter (fun i => cs.get? i = some '.')).getLast?

/-- `Path(p).suffix`: the extension of the final component.  Following
`pathlib`, the last dot must be neither the first nor the last character of
the name (so `.bashrc` and `foo.` have empty suffix). -/
def pathSuffix (p : String) : String :=
  let name := pathName p
  let cs := name.data
  match lastDotIdx cs with
  | some i => if 0 < i ∧ i < cs.length - 1 then String.mk (cs.drop i) else ""
  | none => ""

/-- The extension-check block common to transcriber.py:26-32 and
transcriber_pb.py:79-85: a two-line warning when the lowercased suffix is
not in `supported_formats`, nothing otherwise. -/
def formatWarning (file_extension : String) : List Event :=
  if file_extension ∈ supported_formats then []
  else [Event.warnFormat file_extension]

/-- The keyword arguments of the basic transcriber's model call
(transcriber.py:47-50): `language=language` when truthy, nothing otherwise. -/
def basicOpts (language : Option String) : TranscribeOptions :=
  if pyTruthy language then { language := language } else {}

/-- The `transcribe_options` dict of the progress-reporting variant
(transcriber_pb.py:111-117): always `fp16=False, verbose=False`, plus
`language` when truthy.  No progress callback is ever added to the dict. -/
def pbOpts (language : Option String) : TranscribeOptions :=
  if pyTruthy language then
    { language := language, fp16 := some false, verbose := some false }
  else
    { fp16 := some false, verbose := some false }

/-- The result-saving block common to transcriber.py:56-59 and
transcriber_pb.py:144-148: when `output_file` is truthy, write exactly
`result['text']` to it and print the confirmation; otherwise nothing. -/
def saveEvs (output_file : Option String) (result : TranscriptionResult) :
    List Event :=
  match output_file with
  | some out =>
    if out ≠ "" then
      [Event.writeFile out result.text,
       Event.print ("Transcripción guardada en: " ++ out)]
    else []
  | none => []

namespace Transcriber

/-- `transcribe_audio` of transcriber.py (lines 8-61).  Returns the event
trace together with the result or the raised exception. -/
def transcribe_audio (env : Env) (audio_file_path : String)
    (model_size : String := "base") (language : Option String := none)
    (output_file : Option String := none) :
    List Event × Except PyError TranscriptionResult :=
  if env.pathExists audio_file_path then
    let file_extension := strToLower (pathSuffix audio_file_path)
    let evs1 := formatWarning file_extension ++
      [Event.print ("Cargando modelo Whisper '" ++ model_size ++ "'..."),
       Event.loadModel model_size]
    match env.loadModel model_size with
    | Except.error e => (evs1, Except.error e)
    | Except.ok _ =>
      let evs2 := evs1 ++
        [Event.print "Modelo cargado",
         Event.print ("Transcribiendo archivo: " ++ audio_file_path),
         Event.transcribeCall audio_file_path (basicOpts language)]
      match env.transcribe model_size audio_file_path (basicOpts language) with
      | Except.error e => (evs2, Except.error e)
      | Except.ok result =>
        let evs3 := evs2 ++ [Event.print "Transcripción completada"]
        (evs3 ++ saveEvs output_file result, Except.ok result)
  else
    ([], Except.error (PyError.fileNotFound
      ("El archivo " ++ audio_file_path ++ " no existe")))

end Transcriber

/-- `"="*50`. -/
def sep50 : String := String.mk (List.replicate 50 '=')

/-- The verbose per-segment listing (transcriber.py:97-102,
transcriber_pb.py:198-214; the pb variant's ANSI confidence coloring is
presentation elided from the event). -/
def segmentLines (segments : List Segment) : List Event :=
  segments.enum.map (fun p => Event.segmentLine (p.1 + 1) p.2)

/-- Parsed command-line arguments of transcriber.py (lines 64-74). -/
structure Args where
  audio_file : String
  model : String := "base"
  language : Option String := none
  output : Option String := none
  verbose : Bool := false
  deriving Repr, DecidableEq

/-- Parsed command-line arguments of transcriber_pb.py (lines 152-165). -/
structure ArgsPb where
  audio_file : String
  model : String := "base"
  language : Option String := none
  output : Option String := none
  verbose : Bool := false
  no_progress : Bool := false
  deriving Repr, DecidableEq

namespace Transcriber

/-- `main` of transcriber.py (lines 63-109), after argument parsing.
Returns the event trace and the process exit code. -/
def main (env : Env) (args : Args) : List Event × Nat :=
  match transcribe_audio env args.audio_file args.model args.language args.output with
  | (evs, Except.ok result) =>
    let displayEvs :=
      [Event.print ("\n" ++ sep50), Event.print "TRANSCRIPCIÓN:",
       Event.print sep50, Event.print result.text]
    let verbEvs :=
      if args.verbose then
        [Event.print ("\n" ++ sep50), Event.print "INFORMACIÓN DETALLADA:",
         Event.print sep50,
         Event.print ("Idioma detectado: " ++ result.language),
         Event.print "\nSegmentos:"] ++ segmentLines result.segments
      else []
    (evs ++ displayEvs ++ verbEvs, 0)
  | (evs, Except.error (PyError.fileNotFound msg)) =>
    (evs ++ [Event.print ("Error: " ++ msg)], 1)
  | (evs, Except.error (PyError.otherError msg)) =>
    (evs ++ [Event.print ("Error inesperado: " ++ msg)], 1)

end Transcriber

namespace TranscriberPb

/-- The state of the tqdm bar owned by `ProgressCallback` (total and the
current position `n`). -/
structure PBar where
  total : ℚ
  n : ℚ
  deriving Repr, DecidableEq

/-- `ProgressCallback` of transcriber_pb.py (lines 9-43): holds the probed
audio duration and a lazily created progress bar.  In `transcribe_audio` an
instance is created and closed but `call` is never applied: the object is
not among the keyword arguments of `model.transcribe`. -/
structure ProgressCallback where
  audio_duration : Option ℚ
  pbar : Option PBar := none
  deriving Repr, DecidableEq

/-- `ProgressCallback.__call__` (lines 16-38).  A chunk is a segment, which
always has `start`/`end` attributes, so the `hasattr` branch is the one
taken; the bar position moves to `min(chunk.end, audio_duration)` when the
duration is truthy (non-`None`, nonzero). -/
def ProgressCallback.call (self : ProgressCallback) (chunk : Segment) :
    ProgressCallback :=
  let pbar :=
    match self.pbar with
    | none =>
      { total :=
          match self.audio_duration with
          | none => (100 : ℚ)
          | some d => ((⌊d⌋ : ℤ) : ℚ),
        n := 0 }
    | some p => p
  let pbar :=
    match self.audio_duration with
    | some d => if d ≠ 0 then { pbar with n := min chunk.end_ d } else pbar
    | none => pbar
  { self with pbar := some pbar }

/-- `ProgressCallback.close` (lines 40-43): closes the tqdm bar if created;
no modelled state changes. -/
def ProgressCallback.close (self : ProgressCallback) : ProgressCallback :=
  self

/-- Line 97: the ffprobe subprocess runs only when `show_progress`. -/
def probeEvs (show_progress : Bool) (path : String) : List Event :=
  if show_progress then [Event.probeDuration path] else []

/-- Lines 98-99: `if audio_duration:` — the duration line is printed only
for a non-`None`, nonzero duration. -/
def durPrintEvs : Option ℚ → List Event
  | some d => if d ≠ 0 then [Event.print "Duración del audio"] else []
  | none => []

/-- Lines 126-135: the post-hoc manual progress bar over the
already-completed segment list, one update per segment.  The guard
`show_progress and progress_callback` reduces to `show_progress`, since
the callback object is `Some` exactly when `show_progress`. -/
def postHocEvs (show_progress : Bool) (n : Nat) : List Event :=
  if show_progress then (List.range n).map Event.progressUpdate else []

/-- `transcribe_audio` of transcriber_pb.py (lines 60-150).  The duration
probe runs only when `show_progress`; the model call always receives
`fp16=False, verbose=False` (plus `language` when truthy) and never a
progress callback; after a successful call, a post-hoc progress bar
iterates once per completed segment; `Transcripción completada` and the
optional output write happen after the `try/finally` block, so they are
skipped when the model call raises. -/
def transcribe_audio (env : Env) (audio_file_path : String)
    (model_size : String := "base") (language : Option String := none)
    (output_file : Option String := none) (show_progress : Bool := true) :
    List Event × Except PyError TranscriptionResult :=
  if env.pathExists audio_file_path then
    let file_extension := strToLower (pathSuffix audio_file_path)
    let evs1 := formatWarning file_extension ++
      [Event.print ("Cargando modelo Whisper '" ++ model_size ++ "'..."),
       Event.loadModel model_size]
    match env.loadModel model_size with
    | Except.error e => (evs1, Except.error e)
    | Except.ok _ =>
      let audio_duration :=
        if show_progress then env.audioDuration audio_file_path else none
      -- lines 104-107: the callback object is created here but never
      -- passed to the model call; it is only closed in the finally block.
      let progress_callback : Option ProgressCallback :=
        if show_progress then some { audio_duration := audio_duration } else none
      let evs2 := evs1 ++ [Event.print "Modelo cargado"] ++
        probeEvs show_progress audio_file_path ++ durPrintEvs audio_duration ++
        [Event.print ("Transcribiendo archivo: " ++ audio_file_path),
         Event.transcribeCall audio_file_path (pbOpts language)]
      match env.transcribe model_size audio_file_path (pbOpts language) with
      | Except.error e =>
        let _ := progress_callback.map ProgressCallback.close
        (evs2, Except.error e)
      | Except.ok result =>
        let _ := progress_callback.map ProgressCallback.close
        let evs3 := evs2 ++ postHocEvs show_progress result.segments.length ++
          [Event.print "Transcripción completada"]
        (evs3 ++ saveEvs output_file result, Except.ok result)
  else
    ([], Except.error (PyError.fileNotFound
      ("El archivo " ++ audio_file_path ++ " no existe")))

/-- The average-confidence statistic of transcriber_pb.py line 192:
`sum(seg.get('avg_logprob', 0) for seg in segments) / total_segments`
when there is at least one segment, `0` otherwise. -/
def avg_confidence (segments : List Segment) : ℚ :=
  if segments.length > 0 then
    ((segments.map (fun seg => seg.avg_logprob.getD 0)).sum) / (segments.length : ℚ)
  else 0

/-- `result['segments'][-1]['end'] if result['segments'] else 0`
(line 191). -/
def total_duration (segments : List Segment) : ℚ :=
  match segments.getLast? with
  | some seg => seg.end_
  | none => 0

/-- The verbose block of transcriber_pb.py `main` (lines 183-214):
detected language, the three statistics, and the per-segment listing. -/
def verboseStats (result : TranscriptionResult) : List Event :=
  [Event.print ("\n" ++ sep50), Event.print "INFORMACIÓN DETALLADA:",
   Event.print sep50,
   Event.print ("Idioma detectado: " ++ result.language),
   Event.print ("Total de segmentos: " ++ toString result.segments.length),
   Event.print ("Duración total: " ++ toString (total_duration result.segments)),
   Event.print ("Confianza promedio: " ++ toString (avg_confidence result.segments)),
   Event.print "\nSegmentos:"] ++ segmentLines result.segments

/-- `main` of transcriber_pb.py (lines 152-224), after argument parsing.
The `except KeyboardInterrupt` handler also exits with code 1, but
asynchronous interrupt delivery is outside this embedding, so only the
errors raised by the library calls appear here. -/
def main (env : Env) (args : ArgsPb) : List Event × Nat :=
  match transcribe_audio env args.audio_file args.model args.language
      args.output (!args.no_progress) with
  | (evs, Except.ok result) =>
    let displayEvs :=
      [Event.print ("\n" ++ sep50), Event.print "TRANSCRIPCIÓN:",
       Event.print sep50, Event.print result.text]
    let verbEvs := if args.verbose then verboseStats result else []
    (evs ++ displayEvs ++ verbEvs, 0)
  | (evs, Except.error (PyError.fileNotFound msg)) =>
    (evs ++ [Event.print ("Error: " ++ msg)], 1)
  | (evs, Except.error (PyError.otherError msg)) =>
    (evs ++ [Event.print ("Error inesperado: " ++ msg)], 1)

end TranscriberPb

/-- A side effect of the format-converter script. -/
inductive ConvEvent where
  | fromFile (path : String) (format : String)
  | exportFile (path : String) (format : String)
  deriving Repr, DecidableEq

/-- m4a2wav.py, the whole module: it defines no argument parsing and reads
no command-line value; whatever `argv` the process receives, it decodes the
fixed path `test_audio.m4a` and exports `test_audio.wav`. -/
def m4a2wav (argv : List String) : List ConvEvent :=
  match argv with
  | _ =>
    [ConvEvent.fromFile "test_audio.m4a" "m4a",
     ConvEvent.exportFile "test_audio.wav" "wav"]

/-! ## Trace observations -/

/-- Is this event the format warning? -/
def Event.isWarnFormat : Event → Bool
  | .warnFormat _ => true
  | _ => false

/-- Is this event a model load? -/
def Event.isLoadModel : Event → Bool
  | .loadModel _ => true
  | _ => false

/-- Is this event a model invocation? -/
def Event.isTranscribeCall : Event → Bool
  | .transcribeCall _ _ => true
  | _ => false

/-- Is this event a post-hoc progress-bar update? -/
def Event.isProgressUpdate : Event → Bool
  | .progressUpdate _ => true
  | _ => false

/-- Number of format warnings in a trace. -/
def countWarn (evs : List Event) : Nat :=
  evs.countP (fun e => e.isWarnFormat)

/-- The output-file write of an event, if it is one. -/
def writeOf : Event → Option (String × String)
  | .writeFile p c => some (p, c)
  | _ => none

/-- All output-file writes of a trace, in order, as (path, contents). -/
def writesOf (evs : List Event) : List (String × String) :=
  evs.filterMap writeOf

/-- Did the embedded run return a result (rather than raise)? -/
def runSucceeded : Except PyError TranscriptionResult → Bool
  | Except.ok _ => true
  | Except.error _ => false

/-! ## Run-shape lemmas

One lemma per control path of each `transcribe_audio`, characterising the
returned trace and outcome. -/

theorem Transcriber.run_missing (env : Env) (path ms : String)
    (lang out : Option String) (hex : env.pathExists path = false) :
    Transcriber.transcribe_audio env path ms lang out =
      ([], Except.error (PyError.fileNotFound
        ("El archivo " ++ path ++ " no existe"))) := by
  simp [Transcriber.transcribe_audio, hex]

theorem Transcriber.run_loadFail (env : Env) (path ms : String)
    (lang out : Option String) (e : PyError)
    (hex : env.pathExists path = true)
    (hL : env.loadModel ms = Except.error e) :
    Transcriber.transcribe_audio env path ms lang out =
      (formatWarning (strToLower (pathSuffix path)) ++
        [Event.print ("Cargando modelo Whisper '" ++ ms ++ "'..."),
         Event.loadModel ms],
       Except.error e) := by
  simp [Transcriber.transcribe_audio, hex, hL]

theorem Transcriber.run_transcribeFail (env : Env) (path ms : String)
    (lang out : Option String) (e : PyError)
    (hex : env.pathExists path = true)
    (hL : env.loadModel ms = Except.ok ())
    (hT : env.transcribe ms path (basicOpts lang) = Except.error e) :
    Transcriber.transcribe_audio env path ms lang out =
      (formatWarning (strToLower (pathSuffix path)) ++
        [Event.print ("Cargando modelo Whisper '" ++ ms ++ "'..."),
         Event.loadModel ms,
         Event.print "Modelo cargado",
         Event.print ("Transcribiendo archivo: " ++ path),
         Event.transcribeCall path (basicOpts lang)],
       Except.error e) := by
  simp [Transcriber.transcribe_audio, hex, hL, hT]

theorem Transcriber.run_ok (env : Env) (path ms : String)
    (lang out : Option String) (result : TranscriptionResult)
    (hex : env.pathExists path = true)
    (hL : env.loadModel ms = Except.ok ())
    (hT : env.transcribe ms path (basicOpts lang) = Except.ok result) :
    Transcriber.transcribe_audio env path ms lang out =
      (formatWarning (strToLower (pathSuffix path)) ++
        [Event.print ("Cargando modelo Whisper '" ++ ms ++ "'..."),
         Event.loadModel ms,
         Event.print "Modelo cargado",
         Event.print ("Transcribiendo archivo: " ++ path),
         Event.transcribeCall path (basicOpts lang),
         Event.print "Transcripción completada"] ++ saveEvs out result,
       Except.ok result) := by
  simp [Transcriber.transcribe_audio, hex, hL, hT]

theorem TranscriberPb.pb_run_missing (env : Env) (path ms : String)
    (lang out : Option String) (sp : Bool)
    (hex : env.pathExists path = false) :
    TranscriberPb.transcribe_audio env path ms lang out sp =
      ([], Except.error (PyError.fileNotFound
        ("El archivo " ++ path ++ " no existe"))) := by
  simp [TranscriberPb.transcribe_audio, hex]

theorem TranscriberPb.pb_run_loadFail (env : Env) (path ms : String)
    (lang out : Option String) (sp : Bool) (e : PyError)
    (hex : env.pathExists path = true)
    (hL : env.loadModel ms = Except.error e) :
    TranscriberPb.transcribe_audio env path ms lang out sp =
      (formatWarning (strToLower (pathSuffix path)) ++
        [Event.print ("Cargando modelo Whisper '" ++ ms ++ "'..."),
         Event.loadModel ms],
       Except.error e) := by
  simp [TranscriberPb.transcribe_audio, hex, hL]

theorem TranscriberPb.pb_run_transcribeFail (env : Env) (path ms : String)
    (lang out : Option String) (sp : Bool) (e : PyError)
    (hex : env.pathExists path = true)
    (hL : env.loadModel ms = Except.ok ())
    (hT : env.transcribe ms path (pbOpts lang) = Except.error e) :
    TranscriberPb.transcribe_audio env path ms lang out sp =
      (formatWarning (strToLower (pathSuffix path)) ++
        [Event.print ("Cargando modelo Whisper '" ++ ms ++ "'..."),
         Event.loadModel ms,
         Event.print "Modelo cargado"] ++
        TranscriberPb.probeEvs sp path ++
        TranscriberPb.durPrintEvs (if sp then env.audioDuration path else none) ++
        [Event.print ("Transcribiendo archivo: " ++ path),
         Event.transcribeCall path (pbOpts lang)],
       Except.error e) := by
  simp [TranscriberPb.transcribe_audio, hex, hL, hT]

theorem TranscriberPb.pb_run_ok (env : Env) (path ms : String)
    (lang out : Option String) (sp : Bool) (result : TranscriptionResult)
    (hex : env.pathExists path = true)
    (hL : env.loadModel ms = Except.ok ())
    (hT : env.transcribe ms path (pbOpts lang) = Except.ok result) :
    TranscriberPb.transcribe_audio env path ms lang out sp =
      (formatWarning (strToLower (pathSuffix path)) ++
        [Event.print ("Cargando modelo Whisper '" ++ ms ++ "'..."),
         Event.loadModel ms,
         Event.print "Modelo cargado"] ++
        TranscriberPb.probeEvs sp path ++
        TranscriberPb.durPrintEvs (if sp then env.audioDuration path else none) ++
        [Event.print ("Transcribiendo archivo: " ++ path),
         Event.transcribeCall path (pbOpts lang)] ++
        TranscriberPb.postHocEvs sp result.segments.length ++
        [Event.print "Transcripción completada"] ++ saveEvs out result,
       Except.ok result) := by
  simp [TranscriberPb.transcribe_audio, hex, hL, hT]

/-! ## Observation lemmas -/

theorem writesOf_formatWarning (x : String) :
    List.filterMap writeOf (formatWarning x) = [] := by
  unfold formatWarning; split <;> simp [writeOf]

theorem writesOf_saveEvs_none (r : TranscriptionResult) :
    List.filterMap writeOf (saveEvs none r) = [] := rfl

theorem writesOf_saveEvs_some (o : String) (r : TranscriptionResult) :
    List.filterMap writeOf (saveEvs (some o) r) =
      if o = "" then [] else [(o, r.text)] := by
  by_cases h : o = "" <;> simp [saveEvs, h, writeOf]

theorem writesOf_probeEvs (sp : Bool) (p : String) :
    List.filterMap writeOf (TranscriberPb.probeEvs sp p) = [] := by
  unfold TranscriberPb.probeEvs; split <;> simp [writeOf]

theorem writesOf_durPrintEvs (d : Option ℚ) :
    List.filterMap writeOf (TranscriberPb.durPrintEvs d) = [] := by
  unfold TranscriberPb.durPrintEvs
  rcases d with _ | x
  · simp
  · split <;> simp [writeOf]

theorem writesOf_postHocEvs (sp : Bool) (n : Nat) :
    List.filterMap writeOf (TranscriberPb.postHocEvs sp n) = [] := by
  unfold TranscriberPb.postHocEvs
  split
  · simp [List.filterMap_map, writeOf, Function.comp]
  · simp

/-- Complete characterisation of the output-file writes of a basic run:
exactly the `saveEvs` block on success, nothing on failure. -/
theorem Transcriber.writesOf_run (env : Env) (path ms : String)
    (lang out : Option String) :
    writesOf (Transcriber.transcribe_audio env path ms lang out).1 =
      (match (Transcriber.transcribe_audio env path ms lang out).2 with
      | Except.ok r => writesOf (saveEvs out r)
      | Except.error _ => []) := by
  by_cases hex : env.pathExists path = true
  · cases hL : env.loadModel ms with
    | error e =>
      rw [Transcriber.run_loadFail env path ms lang out e hex hL]
      simp [writesOf_formatWarning, writesOf, writeOf]
    | ok u =>
      cases u
      cases hT : env.transcribe ms path (basicOpts lang) with
      | error e =>
        rw [Transcriber.run_transcribeFail env path ms lang out e hex hL hT]
        simp [writesOf_formatWarning, writesOf, writeOf]
      | ok r =>
        rw [Transcriber.run_ok env path ms lang out r hex hL hT]
        simp [writesOf_formatWarning, writesOf, writeOf]
  · have hex' : env.pathExists path = false := by simpa using hex
    rw [Transcriber.run_missing env path ms lang out hex']
    simp [writesOf]

/-- Complete characterisation of the output-file writes of a
progress-reporting run. -/
theorem TranscriberPb.pb_writesOf_run (env : Env) (path ms : String)
    (lang out : Option String) (sp : Bool) :
    writesOf (TranscriberPb.transcribe_audio env path ms lang out sp).1 =
      (match (TranscriberPb.transcribe_audio env path ms lang out sp).2 with
      | Except.ok r => writesOf (saveEvs out r)
      | Except.error _ => []) := by
  by_cases hex : env.pathExists path = true
  · cases hL : env.loadModel ms with
    | error e =>
      rw [TranscriberPb.pb_run_loadFail env path ms lang out sp e hex hL]
      simp [writesOf_formatWarning, writesOf, writeOf]
    | ok u =>
      cases u
      cases hT : env.transcribe ms path (pbOpts lang) with
      | error e =>
        rw [TranscriberPb.pb_run_transcribeFail env path ms lang out sp e hex hL hT]
        simp [writesOf_formatWarning, writesOf_probeEvs,
          writesOf_durPrintEvs, writesOf, writeOf]
      | ok r =>
        rw [TranscriberPb.pb_run_ok env path ms lang out sp r hex hL hT]
        simp [writesOf_formatWarning, writesOf_probeEvs,
          writesOf_durPrintEvs, writesOf_postHocEvs, writesOf, writeOf]
  · have hex' : env.pathExists path = false := by simpa using hex
    rw [TranscriberPb.pb_run_missing env path ms lang out sp hex']
    simp [writesOf]

/-! ## Spec-side definitions -/

/-- Spec side for C4: the arithmetic mean of a list of scores, "sum of
segment confidences divided by the number of segments" (0 on the empty
list by the `ℚ` convention `x / 0 = 0`). -/
def arithmeticMean (xs : List ℚ) : ℚ := xs.sum / (xs.length : ℚ)

/-! ## Claims -/

/-- C4: in the progress-reporting variant's verbose statistics, the
reported average confidence (the `Confianza promedio` line) equals the
arithmetic mean of each segment's confidence score (defaulted to 0 where
absent), and equals zero when the segment list is empty. -/
theorem C4_avg_confidence_is_mean (result : TranscriptionResult) :
    Event.print ("Confianza promedio: " ++
        toString (TranscriberPb.avg_confidence result.segments))
      ∈ TranscriberPb.verboseStats result ∧
    TranscriberPb.avg_confidence result.segments =
      arithmeticMean (result.segments.map (fun seg => seg.avg_logprob.getD 0)) ∧
    TranscriberPb.avg_confidence [] = 0 := by
  refine ⟨?_, ?_, rfl⟩
  · simp [TranscriberPb.verboseStats]
  · unfold TranscriberPb.avg_confidence arithmeticMean
    rcases result.segments with _ | ⟨s, ss⟩ <;> simp

/-- C2: each variant's `main` exits with code 1 exactly when the run
raises (file-not-found or any other failure) and with code 0 otherwise;
no other exit code occurs. -/
theorem C2_exit_codes (env : Env) (a : Args) (b : ArgsPb) :
    ((Transcriber.main env a).2 =
      if runSucceeded
          (Transcriber.transcribe_audio env a.audio_file a.model a.language a.output).2
        then 0 else 1) ∧
    ((TranscriberPb.main env b).2 =
      if runSucceeded
          (TranscriberPb.transcribe_audio env b.audio_file b.model b.language
            b.output (!b.no_progress)).2
        then 0 else 1) ∧
    ((Transcriber.main env a).2 = 0 ∨ (Transcriber.main env a).2 = 1) ∧
    ((TranscriberPb.main env b).2 = 0 ∨ (TranscriberPb.main env b).2 = 1) := by
  have hA : (Transcriber.main env a).2 =
      if runSucceeded
          (Transcriber.transcribe_audio env a.audio_file a.model a.language a.output).2
        then 0 else 1 := by
    unfold Transcriber.main
    rcases h : Transcriber.transcribe_audio env a.audio_file a.model a.language a.output
      with ⟨evs, r⟩
    rcases r with e | res
    · rcases e with msg | msg <;> simp [runSucceeded]
    · simp [runSucceeded]
  have hB : (TranscriberPb.main env b).2 =
      if runSucceeded
          (TranscriberPb.transcribe_audio env b.audio_file b.model b.language
            b.output (!b.no_progress)).2
        then 0 else 1 := by
    unfold TranscriberPb.main
    rcases h : TranscriberPb.transcribe_audio env b.audio_file b.model b.language
        b.output (!b.no_progress) with ⟨evs, r⟩
    rcases r with e | res
    · rcases e with msg | msg <;> simp [runSucceeded]
    · simp [runSucceeded]
  refine ⟨hA, hB, ?_, ?_⟩
  · rw [hA]; split <;> simp
  · rw [hB]; split <;> simp

/-! ## Witness data -/

/-- A concrete environment in which no path exists. -/
def envNoFile : Env where
  pathExists := fun _ => false
  loadModel := fun _ => Except.ok ()
  transcribe := fun _ _ _ => Except.error (PyError.otherError "boom")
  audioDuration := fun _ => none

/-- A fixed fake transcription result used by witnesses. -/
def resultDemo : TranscriptionResult where
  text := "hola mundo"
  language := "es"
  segments :=
    [{ start := 0, end_ := 2, text := "hola", avg_logprob := some (-1/2) },
     { start := 2, end_ := 4, text := "mundo" }]

/-- A concrete happy-path environment: every path exists, the model loads,
and transcription returns `resultDemo` whatever the options. -/
def envDemo : Env where
  pathExists := fun _ => true
  loadModel := fun _ => Except.ok ()
  transcribe := fun _ _ _ => Except.ok resultDemo
  audioDuration := fun _ => some 4

/-- C1: for a missing input path (existence oracle false), both variants'
`main` exits with code 1 having printed only the not-found message, and the
trace contains no model load and no model invocation. -/
theorem C1_missing_input (env : Env) (a : Args) (b : ArgsPb)
    (ha : env.pathExists a.audio_file = false)
    (hb : env.pathExists b.audio_file = false) :
    Transcriber.main env a =
      ([Event.print ("Error: " ++ ("El archivo " ++ a.audio_file ++ " no existe"))], 1) ∧
    TranscriberPb.main env b =
      ([Event.print ("Error: " ++ ("El archivo " ++ b.audio_file ++ " no existe"))], 1) ∧
    (∀ s, Event.loadModel s ∉ (Transcriber.main env a).1) ∧
    (∀ p o, Event.transcribeCall p o ∉ (Transcriber.main env a).1) ∧
    (∀ s, Event.loadModel s ∉ (TranscriberPb.main env b).1) ∧
    (∀ p o, Event.transcribeCall p o ∉ (TranscriberPb.main env b).1) := by
  have h1 : Transcriber.main env a =
      ([Event.print ("Error: " ++ ("El archivo " ++ a.audio_file ++ " no existe"))], 1) := by
    unfold Transcriber.main
    rw [Transcriber.run_missing env a.audio_file a.model a.language a.output ha]
    rfl
  have h2 : TranscriberPb.main env b =
      ([Event.print ("Error: " ++ ("El archivo " ++ b.audio_file ++ " no existe"))], 1) := by
    unfold TranscriberPb.main
    rw [TranscriberPb.pb_run_missing env b.audio_file b.model b.language b.output
      (!b.no_progress) hb]
    rfl
  refine ⟨h1, h2, ?_, ?_, ?_, ?_⟩ <;> intro x <;> simp [h1, h2]

/-- Witness for C1: concrete environment and arguments with a missing file. -/
theorem C1_missing_input_witness :
    envNoFile.pathExists "voz.mp3" = false ∧
    Transcriber.main envNoFile { audio_file := "voz.mp3" } =
      ([Event.print ("Error: " ++ ("El archivo " ++ "voz.mp3" ++ " no existe"))], 1) :=
  ⟨rfl, (C1_missing_input envNoFile { audio_file := "voz.mp3" }
    { audio_file := "voz.mp3" } rfl rfl).1⟩

/-- C3: when an output path is supplied and transcription succeeds, the
run's only file write is at that path with exactly the returned result's
text; when no output path is supplied, the run writes no file at all, in
either variant. -/
theorem C3_output_write (env : Env) (path ms : String) (lang : Option String)
    (out : String) (sp : Bool) (hout : out ≠ "") :
    (∀ r, (Transcriber.transcribe_audio env path ms lang (some out)).2 = Except.ok r →
      writesOf (Transcriber.transcribe_audio env path ms lang (some out)).1 =
        [(out, r.text)]) ∧
    (∀ r, (TranscriberPb.transcribe_audio env path ms lang (some out) sp).2 = Except.ok r →
      writesOf (TranscriberPb.transcribe_audio env path ms lang (some out) sp).1 =
        [(out, r.text)]) ∧
    writesOf (Transcriber.transcribe_audio env path ms lang none).1 = [] ∧
    writesOf (TranscriberPb.transcribe_audio env path ms lang none sp).1 = [] := by
  refine ⟨?_, ?_, ?_, ?_⟩
  · intro r hr
    rw [Transcriber.writesOf_run, hr]
    simp [writesOf, writesOf_saveEvs_some, hout]
  · intro r hr
    rw [TranscriberPb.pb_writesOf_run, hr]
    simp [writesOf, writesOf_saveEvs_some, hout]
  · rw [Transcriber.writesOf_run]
    rcases h2 : (Transcriber.transcribe_audio env path ms lang none).2 with e | r <;>
      simp [writesOf, writesOf_saveEvs_none]
  · rw [TranscriberPb.pb_writesOf_run]
    rcases h2 : (TranscriberPb.transcribe_audio env path ms lang none sp).2 with e | r <;>
      simp [writesOf, writesOf_saveEvs_none]

/-- Witness for C3: a successful concrete run writes exactly the result
text, and a run without an output path writes nothing. -/
theorem C3_output_write_witness :
    ("out.txt" : String) ≠ "" ∧
    writesOf (Transcriber.transcribe_audio envDemo "voz.mp3" "base" none (some "out.txt")).1 =
      [("out.txt", resultDemo.text)] ∧
    writesOf (TranscriberPb.transcribe_audio envDemo "voz.mp3" "base" none (some "out.txt") true).1 =
      [("out.txt", resultDemo.text)] ∧
    writesOf (Transcriber.transcribe_audio envDemo "voz.mp3" "base" none none).1 = [] := by
  have h := C3_output_write envDemo "voz.mp3" "base" none "out.txt" true (by decide)
  exact ⟨by decide, h.1 resultDemo rfl, h.2.1 resultDemo rfl, h.2.2.1⟩

/-- C10: calling either variant's `transcribe_audio` with the empty string
as language is indistinguishable from calling it with no language: the
falsy string forwards no language hint to the model call. -/
theorem C10_empty_language (env : Env) (path ms : String) (out : Option String)
    (sp : Bool) :
    Transcriber.transcribe_audio env path ms (some "") out =
      Transcriber.transcribe_audio env path ms none out ∧
    TranscriberPb.transcribe_audio env path ms (some "") out sp =
      TranscriberPb.transcribe_audio env path ms none out sp ∧
    basicOpts (some "") = basicOpts none ∧
    (basicOpts (some "")).language = none ∧
    pbOpts (some "") = pbOpts none ∧
    (pbOpts (some "")).language = none := by
  have hb : basicOpts (some "") = basicOpts none := by decide
  have hp : pbOpts (some "") = pbOpts none := by decide
  refine ⟨?_, ?_, hb, by decide, hp, by decide⟩
  · unfold Transcriber.transcribe_audio
    rw [hb]
  · unfold TranscriberPb.transcribe_audio
    rw [hp]

/-! ## Warning-count and membership lemmas -/

theorem isWarnFormat_print (s : String) :
    (Event.print s).isWarnFormat = false := rfl

theorem isWarnFormat_warnFormat (x : String) :
    (Event.warnFormat x).isWarnFormat = true := rfl

theorem isWarnFormat_loadModel (s : String) :
    (Event.loadModel s).isWarnFormat = false := rfl

theorem isWarnFormat_probeDuration (p : String) :
    (Event.probeDuration p).isWarnFormat = false := rfl

theorem isWarnFormat_transcribeCall (p : String) (o : TranscribeOptions) :
    (Event.transcribeCall p o).isWarnFormat = false := rfl

theorem isWarnFormat_progressUpdate (i : Nat) :
    (Event.progressUpdate i).isWarnFormat = false := rfl

theorem isWarnFormat_writeFile (p c : String) :
    (Event.writeFile p c).isWarnFormat = false := rfl

theorem isWarnFormat_segmentLine (i : Nat) (seg : Segment) :
    (Event.segmentLine i seg).isWarnFormat = false := rfl

attribute [simp] isWarnFormat_print isWarnFormat_warnFormat
  isWarnFormat_loadModel isWarnFormat_probeDuration
  isWarnFormat_transcribeCall isWarnFormat_progressUpdate
  isWarnFormat_writeFile isWarnFormat_segmentLine

theorem countWarn_formatWarning (x : String) :
    List.countP (fun e => e.isWarnFormat) (formatWarning x) =
      if x ∈ supported_formats then 0 else 1 := by
  unfold formatWarning; split <;> simp_all

theorem countWarn_saveEvs (out : Option String) (r : TranscriptionResult) :
    List.countP (fun e => e.isWarnFormat) (saveEvs out r) = 0 := by
  rcases out with _ | o
  · rfl
  · by_cases h : o = "" <;> simp [saveEvs, h]

theorem countWarn_probeEvs (sp : Bool) (p : String) :
    List.countP (fun e => e.isWarnFormat) (TranscriberPb.probeEvs sp p) = 0 := by
  unfold TranscriberPb.probeEvs; split <;> simp

theorem countWarn_durPrintEvs (d : Option ℚ) :
    List.countP (fun e => e.isWarnFormat) (TranscriberPb.durPrintEvs d) = 0 := by
  unfold TranscriberPb.durPrintEvs
  rcases d with _ | x
  · simp
  · split <;> simp

theorem countWarn_postHocEvs (sp : Bool) (n : Nat) :
    List.countP (fun e => e.isWarnFormat) (TranscriberPb.postHocEvs sp n) = 0 := by
  unfold TranscriberPb.postHocEvs
  split
  · simp [List.countP_map, Function.comp]
  · simp

/-- The basic run emits the format warning exactly when the lowercased
suffix is unsupported (for an existing file). -/
theorem Transcriber.countWarn_run (env : Env) (path ms : String)
    (lang out : Option String) (hex : env.pathExists path = true) :
    countWarn (Transcriber.transcribe_audio env path ms lang out).1 =
      if supported_formats.contains (strToLower (pathSuffix path)) then 0 else 1 := by
  cases hL : env.loadModel ms with
  | error e =>
    rw [Transcriber.run_loadFail env path ms lang out e hex hL]
    simp [countWarn, countWarn_formatWarning]
  | ok u =>
    cases u
    cases hT : env.transcribe ms path (basicOpts lang) with
    | error e =>
      rw [Transcriber.run_transcribeFail env path ms lang out e hex hL hT]
      simp [countWarn, countWarn_formatWarning]
    | ok r =>
      rw [Transcriber.run_ok env path ms lang out r hex hL hT]
      simp [countWarn, countWarn_formatWarning, countWarn_saveEvs]

/-- The progress-reporting run emits the format warning exactly when the
lowercased suffix is unsupported (for an existing file). -/
theorem TranscriberPb.pb_countWarn_run (env : Env) (path ms : String)
    (lang out : Option String) (sp : Bool) (hex : env.pathExists path = true) :
    countWarn (TranscriberPb.transcribe_audio env path ms lang out sp).1 =
      if supported_formats.contains (strToLower (pathSuffix path)) then 0 else 1 := by
  cases hL : env.loadModel ms with
  | error e =>
    rw [TranscriberPb.pb_run_loadFail env path ms lang out sp e hex hL]
    simp [countWarn, countWarn_formatWarning]
  | ok u =>
    cases u
    cases hT : env.transcribe ms path (pbOpts lang) with
    | error e =>
      rw [TranscriberPb.pb_run_transcribeFail env path ms lang out sp e hex hL hT]
      simp [countWarn, countWarn_formatWarning, countWarn_probeEvs,
        countWarn_durPrintEvs]
    | ok r =>
      rw [TranscriberPb.pb_run_ok env path ms lang out sp r hex hL hT]
      simp [countWarn, countWarn_formatWarning, countWarn_probeEvs,
        countWarn_durPrintEvs, countWarn_postHocEvs, countWarn_saveEvs]

/-- For an existing file the basic run always reaches the model load. -/
theorem Transcriber.loadModel_in_run (env : Env) (path ms : String)
    (lang out : Option String) (hex : env.pathExists path = true) :
    Event.loadModel ms ∈ (Transcriber.transcribe_audio env path ms lang out).1 := by
  cases hL : env.loadModel ms with
  | error e =>
    rw [Transcriber.run_loadFail env path ms lang out e hex hL]; simp
  | ok u =>
    cases u
    cases hT : env.transcribe ms path (basicOpts lang) with
    | error e =>
      rw [Transcriber.run_transcribeFail env path ms lang out e hex hL hT]; simp
    | ok r =>
      rw [Transcriber.run_ok env path ms lang out r hex hL hT]; simp

/-- For an existing file the progress-reporting run always reaches the
model load. -/
theorem TranscriberPb.pb_loadModel_in_run (env : Env) (path ms : String)
    (lang out : Option String) (sp : Bool) (hex : env.pathExists path = true) :
    Event.loadModel ms ∈ (TranscriberPb.transcribe_audio env path ms lang out sp).1 := by
  cases hL : env.loadModel ms with
  | error e =>
    rw [TranscriberPb.pb_run_loadFail env path ms lang out sp e hex hL]; simp
  | ok u =>
    cases u
    cases hT : env.transcribe ms path (pbOpts lang) with
    | error e =>
      rw [TranscriberPb.pb_run_transcribeFail env path ms lang out sp e hex hL hT]; simp
    | ok r =>
      rw [TranscriberPb.pb_run_ok env path ms lang out sp r hex hL hT]; simp

/-- C5: for an existing input file, if the lowercased extension is in the
supported list no format warning is emitted, and if it is not, exactly one
format warning is emitted while the run still proceeds past the check to
the model load in both variants — the mismatch never causes a rejection or
early return. -/
theorem C5_soft_extension_check (env : Env) (path ms : String)
    (lang out : Option String) (sp : Bool)
    (hex : env.pathExists path = true) :
    (strToLower (pathSuffix path) ∈ supported_formats →
      countWarn (Transcriber.transcribe_audio env path ms lang out).1 = 0 ∧
      countWarn (TranscriberPb.transcribe_audio env path ms lang out sp).1 = 0) ∧
    (strToLower (pathSuffix path) ∉ supported_formats →
      countWarn (Transcriber.transcribe_audio env path ms lang out).1 = 1 ∧
      countWarn (TranscriberPb.transcribe_audio env path ms lang out sp).1 = 1) ∧
    Event.loadModel ms ∈ (Transcriber.transcribe_audio env path ms lang out).1 ∧
    Event.loadModel ms ∈ (TranscriberPb.transcribe_audio env path ms lang out sp).1 := by
  refine ⟨?_, ?_,
    Transcriber.loadModel_in_run env path ms lang out hex,
    TranscriberPb.pb_loadModel_in_run env path ms lang out sp hex⟩
  · intro h
    rw [Transcriber.countWarn_run env path ms lang out hex,
      TranscriberPb.pb_countWarn_run env path ms lang out sp hex]
    simp [h]
  · intro h
    rw [Transcriber.countWarn_run env path ms lang out hex,
      TranscriberPb.pb_countWarn_run env path ms lang out sp hex]
    simp [h]

/-- Witness for C5: a concrete run on an unsupported `.txt` input emits
exactly one warning and still loads the model. -/
theorem C5_soft_extension_check_witness :
    envDemo.pathExists "notas.txt" = true ∧
    strToLower (pathSuffix "notas.txt") ∉ supported_formats ∧
    countWarn (Transcriber.transcribe_audio envDemo "notas.txt" "base" none none).1 = 1 ∧
    Event.loadModel "base" ∈
      (Transcriber.transcribe_audio envDemo "notas.txt" "base" none none).1 := by
  have h := C5_soft_extension_check envDemo "notas.txt" "base" none none true rfl
  have hns : strToLower (pathSuffix "notas.txt") ∉ supported_formats := by decide
  exact ⟨rfl, hns, (h.2.1 hns).1, h.2.2.1⟩

/-- C9: the extension check is case-insensitive — for every input path
whose suffix, lowercased, is in the supported list (e.g. `.WAV`), neither
variant emits a format warning. -/
theorem C9_case_insensitive (env : Env) (path ms : String)
    (lang out : Option String) (sp : Bool)
    (h : strToLower (pathSuffix path) ∈ supported_formats) :
    countWarn (Transcriber.transcribe_audio env path ms lang out).1 = 0 ∧
    countWarn (TranscriberPb.transcribe_audio env path ms lang out sp).1 = 0 := by
  by_cases hex : env.pathExists path = true
  · rw [Transcriber.countWarn_run env path ms lang out hex,
      TranscriberPb.pb_countWarn_run env path ms lang out sp hex]
    simp [h]
  · have hex' : env.pathExists path = false := by simpa using hex
    rw [Transcriber.run_missing env path ms lang out hex',
      TranscriberPb.pb_run_missing env path ms lang out sp hex']
    constructor <;> rfl

/-- Witness for C9: a concrete run on `voz.WAV` (uppercase extension)
emits no warning. -/
theorem C9_case_insensitive_witness :
    strToLower (pathSuffix "voz.WAV") ∈ supported_formats ∧
    countWarn (Transcriber.transcribe_audio envDemo "voz.WAV" "base" none none).1 = 0 ∧
    countWarn (TranscriberPb.transcribe_audio envDemo "voz.WAV" "base" none none true).1 = 0 := by
  have hmem : strToLower (pathSuffix "voz.WAV") ∈ supported_formats := by decide
  exact ⟨hmem, C9_case_insensitive envDemo "voz.WAV" "base" none none true hmem⟩

/-- An environment whose model output depends on the `fp16` option: the
returned text differs when `fp16=False` is passed. -/
def envFp16 : Env where
  pathExists := fun _ => true
  loadModel := fun _ => Except.ok ()
  transcribe := fun _ _ opts =>
    if opts.fp16 = some false then
      Except.ok { text := "fp32", language := "es", segments := [] }
    else
      Except.ok { text := "fp16", language := "es", segments := [] }
  audioDuration := fun _ => none

/-- Counterexample to C6 as stated: on the same common input the two
variants do not invoke the model with the same arguments — the
progress-reporting variant adds `fp16=False, verbose=False` — and with a
model sensitive to the `fp16` option they return different results and
write different output-file contents. -/
theorem C6_counterexample :
    pbOpts none ≠ basicOpts none ∧
    (TranscriberPb.transcribe_audio envFp16 "voz.wav" "base" none none true).2 =
      Except.ok { text := "fp32", language := "es", segments := [] } ∧
    (Transcriber.transcribe_audio envFp16 "voz.wav" "base" none none).2 =
      Except.ok { text := "fp16", language := "es", segments := [] } ∧
    ("fp32" : String) ≠ "fp16" ∧
    writesOf (TranscriberPb.transcribe_audio envFp16 "voz.wav" "base" none
        (some "o.txt") true).1 = [("o.txt", "fp32")] ∧
    writesOf (Transcriber.transcribe_audio envFp16 "voz.wav" "base" none
        (some "o.txt")).1 = [("o.txt", "fp16")] := by
  refine ⟨by decide, rfl, rfl, by decide, by decide, by decide⟩

/-- C6 amended: both variants invoke the model on the same path with the
same language hint — the progress-reporting variant merely adds
`fp16=False, verbose=False` and still no callback — and for every model
whose transcription does not depend on options other than the language
hint, both variants return the same result and produce identical
output-file writes. -/
theorem C6_refinement (env : Env) (path ms : String) (lang out : Option String)
    (sp : Bool)
    (hins : ∀ size p o1 o2, o1.language = o2.language →
      env.transcribe size p o1 = env.transcribe size p o2) :
    (pbOpts lang).language = (basicOpts lang).language ∧
    (pbOpts lang).fp16 = some false ∧ (pbOpts lang).verbose = some false ∧
    (pbOpts lang).progress_callback = none ∧
    (TranscriberPb.transcribe_audio env path ms lang out sp).2 =
      (Transcriber.transcribe_audio env path ms lang out).2 ∧
    writesOf (TranscriberPb.transcribe_audio env path ms lang out sp).1 =
      writesOf (Transcriber.transcribe_audio env path ms lang out).1 := by
  have hlang : (pbOpts lang).language = (basicOpts lang).language := by
    by_cases ht : pyTruthy lang <;> simp [pbOpts, basicOpts, ht]
  have hTT : env.transcribe ms path (pbOpts lang) =
      env.transcribe ms path (basicOpts lang) :=
    hins ms path _ _ hlang
  have hres : (TranscriberPb.transcribe_audio env path ms lang out sp).2 =
      (Transcriber.transcribe_audio env path ms lang out).2 := by
    by_cases hex : env.pathExists path = true
    · cases hL : env.loadModel ms with
      | error e =>
        rw [TranscriberPb.pb_run_loadFail env path ms lang out sp e hex hL,
          Transcriber.run_loadFail env path ms lang out e hex hL]
      | ok u =>
        cases u
        cases hT : env.transcribe ms path (basicOpts lang) with
        | error e =>
          rw [TranscriberPb.pb_run_transcribeFail env path ms lang out sp e hex hL
              (hTT.trans hT),
            Transcriber.run_transcribeFail env path ms lang out e hex hL hT]
        | ok r =>
          rw [TranscriberPb.pb_run_ok env path ms lang out sp r hex hL (hTT.trans hT),
            Transcriber.run_ok env path ms lang out r hex hL hT]
    · have hex' : env.pathExists path = false := by simpa using hex
      rw [TranscriberPb.pb_run_missing env path ms lang out sp hex',
        Transcriber.run_missing env path ms lang out hex']
  have hfp : (pbOpts lang).fp16 = some false := by
    by_cases ht : pyTruthy lang <;> simp [pbOpts, ht]
  have hvb : (pbOpts lang).verbose = some false := by
    by_cases ht : pyTruthy lang <;> simp [pbOpts, ht]
  have hcb : (pbOpts lang).progress_callback = none := by
    by_cases ht : pyTruthy lang <;> simp [pbOpts, ht]
  refine ⟨hlang, hfp, hvb, hcb, hres, ?_⟩
  rw [TranscriberPb.pb_writesOf_run, Transcriber.writesOf_run, hres]

/-- Witness for C6 amended: with the options-insensitive `envDemo`, the two
variants agree on the result and the writes. -/
theorem C6_refinement_witness :
    (TranscriberPb.transcribe_audio envDemo "voz.mp3" "base" none
        (some "o.txt") true).2 =
      (Transcriber.transcribe_audio envDemo "voz.mp3" "base" none (some "o.txt")).2 ∧
    writesOf (TranscriberPb.transcribe_audio envDemo "voz.mp3" "base" none
        (some "o.txt") true).1 =
      writesOf (Transcriber.transcribe_audio envDemo "voz.mp3" "base" none
        (some "o.txt")).1 := by
  have h := C6_refinement envDemo "voz.mp3" "base" none (some "o.txt") true
    (fun _ _ _ _ _ => rfl)
  exact ⟨h.2.2.2.2.1, h.2.2.2.2.2⟩

/-- Counterexample to C8 as stated: invoked with a caller-supplied path on
its command line, the format converter still reads the built-in
`test_audio.m4a` and never the supplied path. -/
theorem C8_counterexample :
    m4a2wav ["otra_voz.m4a"] =
      [ConvEvent.fromFile "test_audio.m4a" "m4a",
       ConvEvent.exportFile "test_audio.wav" "wav"] ∧
    (∀ fmt, ConvEvent.fromFile "otra_voz.m4a" fmt ∉ m4a2wav ["otra_voz.m4a"]) := by
  refine ⟨rfl, ?_⟩
  intro fmt
  simp [m4a2wav]

/-- C8 amended: the two transcriber scripts take a required audio file path
(the required `audio_file` argument) and run the transcription on it, but
the format converter ignores its command line entirely: whatever `argv` it
receives, it reads the fixed built-in `test_audio.m4a` and writes
`test_audio.wav`. -/
theorem C8_converter_fixed_path (argv : List String) (env : Env) (a : Args)
    (b : ArgsPb) :
    m4a2wav argv =
      [ConvEvent.fromFile "test_audio.m4a" "m4a",
       ConvEvent.exportFile "test_audio.wav" "wav"] ∧
    (∀ p fmt, ConvEvent.fromFile p fmt ∈ m4a2wav argv → p = "test_audio.m4a") ∧
    (∃ rest, (Transcriber.main env a).1 =
      (Transcriber.transcribe_audio env a.audio_file a.model a.language a.output).1
        ++ rest) ∧
    (∃ rest, (TranscriberPb.main env b).1 =
      (TranscriberPb.transcribe_audio env b.audio_file b.model b.language b.output
        (!b.no_progress)).1 ++ rest) := by
  refine ⟨rfl, ?_, ?_, ?_⟩
  · intro p fmt h
    simp [m4a2wav] at h
    exact h.1
  · unfold Transcriber.main
    rcases Transcriber.transcribe_audio env a.audio_file a.model a.language a.output
      with ⟨evs, r⟩
    rcases r with e | res
    · rcases e with m | m <;> exact ⟨_, rfl⟩
    · exact ⟨_, List.append_assoc _ _ _⟩
  · unfold TranscriberPb.main
    rcases TranscriberPb.transcribe_audio env b.audio_file b.model b.language b.output
      (!b.no_progress) with ⟨evs, r⟩
    rcases r with e | res
    · rcases e with m | m <;> exact ⟨_, rfl⟩
    · exact ⟨_, List.append_assoc _ _ _⟩

/-- Every model invocation recorded in a trace carries no progress callback
among its options. -/
def callbackFree (evs : List Event) : Bool :=
  evs.all (fun e =>
    match e with
    | Event.transcribeCall _ o => o.progress_callback == none
    | _ => true)

/-- Counterexample to C7 as stated: in a concrete successful
progress-reporting run, no model invocation in the trace carries a progress
callback — the "live" `ProgressCallback` is not wired to the model
invocation — even though progress updates (from the post-hoc loop) do
appear. -/
theorem C7_counterexample :
    Event.transcribeCall "voz.mp3" (pbOpts none) ∈
      (TranscriberPb.transcribe_audio envDemo "voz.mp3" "base" none none true).1 ∧
    (pbOpts none).progress_callback = none ∧
    callbackFree
      (TranscriberPb.transcribe_audio envDemo "voz.mp3" "base" none none true).1 =
      true ∧
    Event.progressUpdate 0 ∈
      (TranscriberPb.transcribe_audio envDemo "voz.mp3" "base" none none true).1 := by
  refine ⟨by decide, rfl, by decide, by decide⟩

theorem progressUpdate_not_in_formatWarning (i : Nat) (x : String) :
    Event.progressUpdate i ∉ formatWarning x := by
  unfold formatWarning; split <;> simp

theorem progressUpdate_not_in_probeEvs (i : Nat) (sp : Bool) (p : String) :
    Event.progressUpdate i ∉ TranscriberPb.probeEvs sp p := by
  unfold TranscriberPb.probeEvs; split <;> simp

theorem progressUpdate_not_in_durPrintEvs (i : Nat) (d : Option ℚ) :
    Event.progressUpdate i ∉ TranscriberPb.durPrintEvs d := by
  unfold TranscriberPb.durPrintEvs
  rcases d with _ | x
  · simp
  · split <;> simp

theorem progressUpdate_not_in_saveEvs (i : Nat) (out : Option String)
    (r : TranscriptionResult) :
    Event.progressUpdate i ∉ saveEvs out r := by
  unfold saveEvs
  rcases out with _ | o
  · simp
  · split <;> simp

/-- C7 amended: the `ProgressCallback` object is constructed but never
passed to the model invocation (`progress_callback` absent from the call's
options), and in every successful progress-reporting run the visible
progress updates come entirely from the post-hoc loop over the completed
segment list: the trace splits around the single model-call event with no
progress update before it, exactly one update per segment immediately
after it, and none later. -/
theorem C7_posthoc_progress (env : Env) (path ms : String)
    (lang out : Option String) (r : TranscriptionResult)
    (hex : env.pathExists path = true)
    (hL : env.loadModel ms = Except.ok ())
    (hT : env.transcribe ms path (pbOpts lang) = Except.ok r) :
    (pbOpts lang).progress_callback = none ∧
    (TranscriberPb.transcribe_audio env path ms lang out true).1 =
      (formatWarning (strToLower (pathSuffix path)) ++
        [Event.print ("Cargando modelo Whisper '" ++ ms ++ "'..."),
         Event.loadModel ms, Event.print "Modelo cargado"] ++
        TranscriberPb.probeEvs true path ++
        TranscriberPb.durPrintEvs (env.audioDuration path) ++
        [Event.print ("Transcribiendo archivo: " ++ path)]) ++
      [Event.transcribeCall path (pbOpts lang)] ++
      ((List.range r.segments.length).map Event.progressUpdate ++
        ([Event.print "Transcripción completada"] ++ saveEvs out r)) ∧
    (∀ i, Event.progressUpdate i ∉
      formatWarning (strToLower (pathSuffix path)) ++
        [Event.print ("Cargando modelo Whisper '" ++ ms ++ "'..."),
         Event.loadModel ms, Event.print "Modelo cargado"] ++
        TranscriberPb.probeEvs true path ++
        TranscriberPb.durPrintEvs (env.audioDuration path) ++
        [Event.print ("Transcribiendo archivo: " ++ path)]) ∧
    (∀ i, Event.progressUpdate i ∉
      [Event.print "Transcripción completada"] ++ saveEvs out r) ∧
    ((List.range r.segments.length).map Event.progressUpdate).length =
      r.segments.length := by
  refine ⟨?_, ?_, ?_, ?_, by simp⟩
  · by_cases ht : pyTruthy lang <;> simp [pbOpts, ht]
  · rw [TranscriberPb.pb_run_ok env path ms lang out true r hex hL hT]
    simp [TranscriberPb.postHocEvs]
  · intro i
    simp [List.mem_append, progressUpdate_not_in_formatWarning,
      progressUpdate_not_in_probeEvs, progressUpdate_not_in_durPrintEvs]
  · intro i
    simp [List.mem_append, progressUpdate_not_in_saveEvs]

/-- Witness for C7 amended at a concrete environment and input. -/
theorem C7_posthoc_progress_witness :
    envDemo.pathExists "voz.mp3" = true ∧
    envDemo.loadModel "base" = Except.ok () ∧
    envDemo.transcribe "base" "voz.mp3" (pbOpts none) = Except.ok resultDemo ∧
    (pbOpts none).progress_callback = none ∧
    ((List.range resultDemo.segments.length).map Event.progressUpdate).length =
      resultDemo.segments.length := by
  have h := C7_posthoc_progress envDemo "voz.mp3" "base" none none resultDemo
    rfl rfl rfl
  exact ⟨rfl, rfl, rfl, h.1, h.2.2.2.2⟩
